import Mathlib

/-!
Verification of the two interactive utilities of this repository:
a Blender render-configuration script (blender4.4.3.py) and a PNG-sequence
to video converter (png_to_video.py).

Modelling conventions.
User input (stdin) is a list of lines, consumed front to back; a prompt that
runs out of input is modelled as `none` (the real program would block forever
waiting for input).  The re-prompt loop of the numbered-choice prompt is given
a fuel parameter: `none` also results when the loop never receives an accepted
selection within the given fuel, and theorems quantify over all fuels where the
distinction matters.  Console output (prints) carries no information for any
property below and is dropped.  Python strings are Lean `String`s; the string
operations used by the scripts (strip, lower, endswith, membership, int/float
conversion, os.path helpers) are defined below over the underlying character
lists so that everything evaluates inside the kernel.
-/

/-- Python str.strip: drop whitespace from both ends. -/
def pyStrip (s : String) : String :=
  String.mk (((s.data.dropWhile Char.isWhitespace).reverse.dropWhile Char.isWhitespace).reverse)

/-- Python str.lower (ASCII case folding, which is all the scripts use). -/
def pyLower (s : String) : String :=
  String.mk (s.data.map Char.toLower)

/-- Python str.endswith. -/
def pyEndsWith (s suf : String) : Bool :=
  suf.data.isSuffixOf s.data

/-- Contiguous-sublist test on character lists. -/
def listInfix (n : List Char) : List Char → Bool
  | [] => n.isEmpty
  | c :: t => n.isPrefixOf (c :: t) || listInfix n t

/-- Python `needle in haystack` on strings (substring test). -/
def pyIn (needle hay : String) : Bool :=
  listInfix needle.data hay.data

/-- Value of a list of decimal digit characters. -/
def digitsVal (l : List Char) : Nat :=
  l.foldl (fun acc c => 10 * acc + (c.toNat - '0'.toNat)) 0

/-- Python int(s) on an already-stripped string: optional sign followed by a
non-empty run of decimal digits; anything else raises ValueError (`none`). -/
def pyInt (s : String) : Option Int :=
  match s.data with
  | [] => none
  | c :: rest =>
    if c = '-' then
      if rest ≠ [] ∧ rest.all Char.isDigit then some (-(digitsVal rest : Int)) else none
    else if c = '+' then
      if rest ≠ [] ∧ rest.all Char.isDigit then some ((digitsVal rest : Int)) else none
    else if (c :: rest).all Char.isDigit then some ((digitsVal (c :: rest) : Int)) else none

/-- Python float(s), restricted to the sign + decimal-literal subset actually
typed at these prompts (no exponents, infinities or NaN). -/
def pyFloat (s : String) : Option Rat :=
  let go : List Char → Option Rat := fun l =>
    let intPart := l.takeWhile Char.isDigit
    let rest := l.dropWhile Char.isDigit
    match rest with
    | [] => if intPart = [] then none else some ((digitsVal intPart : Rat))
    | '.' :: frac =>
      if frac.all Char.isDigit ∧ (intPart ≠ [] ∨ frac ≠ []) then
        some ((digitsVal intPart : Rat) + (digitsVal frac : Rat) / ((10 : Rat) ^ frac.length))
      else none
    | _ => none
  match s.data with
  | '-' :: rest => (go rest).map (fun q => -q)
  | '+' :: rest => go rest
  | l => go l

/-- Python str(s) used as a value_type: always succeeds, identity. -/
def pyStr (s : String) : Option String :=
  some s

/-- Python `a or b` on strings: `b` when `a` is empty (falsy), else `a`. -/
def pyOr (a b : String) : String :=
  if a = "" then b else a

/-- os.path.join for the shapes used here (second component relative). -/
def pyPathJoin (a b : String) : String :=
  if a = "" then b else if pyEndsWith a "/" then a ++ b else a ++ "/" ++ b

/-- os.path.basename: the part after the last slash. -/
def pyBasename (s : String) : String :=
  String.mk ((s.data.reverse.takeWhile (fun c => c ≠ '/')).reverse)

/-- os.path.dirname: the part before the last slash, empty when there is no
slash (trailing-slash edge cases of the real function are not needed here). -/
def pyDirname (s : String) : String :=
  match s.data.reverse.dropWhile (fun c => c ≠ '/') with
  | [] => ""
  | _ :: before => String.mk before.reverse

/-- s.split(sep)[0]: the part before the first occurrence of sep. -/
def pySplitHead (s : String) (sep : Char) : String :=
  String.mk (s.data.takeWhile (fun c => c ≠ sep))

/-!
## Prompt engine (identical in both scripts)

`get_user_input(prompt, default, value_type)` reads a line, strips it, returns
the default on empty input when a default exists, otherwise coerces and
re-prompts on ValueError.  `select_from_options(prompt, options, default_index)`
reads integers through `get_user_input` until one falls in `[1, len(options)]`
and returns the corresponding option (1-based).
-/

/-- get_user_input: consume input lines until one yields a value.  Structural
on the remaining input; `none` means the program is still waiting for input. -/
def get_user_input {α : Type} (default : Option α) (value_type : String → Option α) :
    List String → Option (α × List String)
  | [] => none
  | line :: rest =>
    let user_input := pyStrip line
    if h : user_input = "" ∧ default.isSome then
      some (default.get h.2, rest)
    else
      match value_type user_input with
      | some v => some (v, rest)
      | none => get_user_input default value_type rest

/-- select_from_options: loop (bounded by fuel) asking for an integer choice,
accept it exactly when it lies in `[1, options.length]`, and return the option
at the chosen 1-based position. -/
def select_from_options {α : Type} (fuel : Nat) (options : List α) (default_index : Int)
    (inputs : List String) : Option (α × List String) :=
  match fuel with
  | 0 => none
  | fuel + 1 =>
    match get_user_input (some default_index) pyInt inputs with
    | none => none
    | some (choice, rest) =>
      if 1 ≤ choice ∧ choice ≤ (options.length : Int) then
        match options.get? (choice - 1).toNat with
        | some o => some (o, rest)
        | none => none
      else select_from_options fuel options default_index rest

/-- Sequencing of prompt steps: thread the remaining input through. -/
def pbind {α β : Type} (x : Option (α × List String))
    (f : α → List String → Option (β × List String)) : Option (β × List String) :=
  match x with
  | none => none
  | some (a, rest) => f a rest

theorem pbind_none {α β : Type} (f : α → List String → Option (β × List String)) :
    pbind none f = none := rfl

theorem pbind_eq_some {α β : Type} {x : Option (α × List String)}
    {f : α → List String → Option (β × List String)} {b : β} {rest : List String}
    (h : pbind x f = some (b, rest)) :
    ∃ a r, x = some (a, r) ∧ f a r = some (b, rest) := by
  cases x with
  | none => simp [pbind] at h
  | some p =>
    obtain ⟨a, r⟩ := p
    exact ⟨a, r, rfl, h⟩

/-!
## png_to_video.py
-/

/-- ensure_file_extension: append the default extension unless the filename
already ends (case-insensitively) in one of the known video extensions. -/
def ensure_file_extension (filename : String) (default_extension : String := ".mp4") : String :=
  if ([".mp4", ".mkv", ".avi", ".mov", ".webm"].any
      (fun ext => pyEndsWith (pyLower filename) ext)) then
    filename
  else
    filename ++ default_extension

/-- codec_map of create_video_from_pngs: menu label to ffmpeg codec name. -/
def codec_map : List (String × String) :=
  [("H.264 (通用)", "libx264"),
   ("H.265 (高效)", "libx265"),
   ("VP9 (WebM)", "libvpx-vp9"),
   ("ProRes (专业编辑)", "prores")]

/-- quality_map of create_video_from_pngs: menu label to (preset, crf). -/
def video_quality_map : List (String × (String × Nat)) :=
  [("超高质量 (文件大)", ("slow", 18)),
   ("高质量", ("medium", 20)),
   ("中等质量", ("fast", 23)),
   ("低质量 (文件小)", ("ultrafast", 28))]

/-- Python dict.get(k, default) over an association list. -/
def dict_getD {β : Type} (d : List (String × β)) (k : String) (dflt : β) : β :=
  match d.find? (fun p => p.1 == k) with
  | some p => p.2
  | none => dflt

/-- The common ffmpeg argument list built by create_video_from_pngs before the
codec-specific extensions and the output path are appended. -/
def base_command (frame_rate : Int) (input_pattern codec preset : String) (crf : Nat) :
    List String :=
  ["ffmpeg", "-y",
   "-framerate", toString frame_rate,
   "-pattern_type", "glob",
   "-i", input_pattern,
   "-c:v", codec,
   "-preset", preset,
   "-crf", toString crf,
   "-pix_fmt", "yuv420p",
   "-r", toString frame_rate,
   "-movflags", "+faststart"]

/-- The full ffmpeg argument vector: common arguments, then the VP9 bitrate
override or the ProRes profile selection when applicable, then the output. -/
def build_ffmpeg_command (frame_rate : Int) (input_pattern codec preset : String)
    (crf : Nat) (output_file : String) : List String :=
  let command := base_command frame_rate input_pattern codec preset crf
  let command :=
    if codec = "libvpx-vp9" then command ++ ["-b:v", "0"]
    else if codec = "prores" then command ++ ["-profile:v", "3"]
    else command
  command ++ [output_file]

/-- External world of png_to_video.py: the filesystem check and the result of
running a subprocess with a given argument vector. -/
structure VideoEnv where
  path_exists : String → Bool
  run_returncode : List String → Int

/-- create_video_from_pngs.  The result records the returned success flag and
the list of encoder invocations performed (in order), alongside the unread
input.  `none` means the run is still blocked waiting for user input. -/
def create_video_from_pngs (env : VideoEnv) (fuel : Nat) (inputs : List String) :
    Option ((Bool × List (List String)) × List String) :=
  pbind (get_user_input none pyStr inputs) fun input_folder inputs =>
  if env.path_exists input_folder = false then some ((false, []), inputs)
  else
  pbind (get_user_input (some "output.mp4") pyStr inputs) fun output_file inputs =>
  let output_file := ensure_file_extension output_file
  pbind (get_user_input (some (24 : Int)) pyInt inputs) fun frame_rate inputs =>
  pbind (select_from_options fuel
      ["H.264 (通用)", "H.265 (高效)", "VP9 (WebM)", "ProRes (专业编辑)"] 1 inputs)
    fun codec_choice inputs =>
  let codec := dict_getD codec_map codec_choice "libx264"
  pbind (select_from_options fuel
      ["超高质量 (文件大)", "高质量", "中等质量", "低质量 (文件小)"] 2 inputs)
    fun quality_choice inputs =>
  let quality_settings := dict_getD video_quality_map quality_choice ("medium", 23)
  pbind (get_user_input (some "y") pyStr inputs) fun confirm inputs =>
  if pyLower confirm ≠ "y" then some ((false, []), inputs)
  else
    let input_pattern := pyPathJoin input_folder "*.png"
    let command := build_ffmpeg_command frame_rate input_pattern codec
        quality_settings.1 quality_settings.2 output_file
    if env.run_returncode command = 0 then some ((true, [command]), inputs)
    else some ((false, [command]), inputs)

/-!
## blender4.4.3.py: configuration dictionaries
-/

/-- Scalar values stored in a configuration dictionary. -/
inductive PyVal where
  | str (s : String)
  | int (n : Int)
  | float (q : Rat)
  | bool (b : Bool)
deriving DecidableEq

/-- A Python dict with string keys, as an insertion-ordered association list. -/
abbrev PyDict : Type := List (String × PyVal)

/-- dict[k] = v: replace in place when the key exists, append otherwise. -/
def dictSet : PyDict → String → PyVal → PyDict
  | [], k, v => [(k, v)]
  | (k', v') :: rest, k, v =>
    if k' = k then (k, v) :: rest else (k', v') :: dictSet rest k v

/-- dict[k] lookup. -/
def dictGet : PyDict → String → Option PyVal
  | [], _ => none
  | (k', v') :: rest, k => if k' = k then some v' else dictGet rest k

/-- The keys of a dict, in order. -/
def dictKeys (d : PyDict) : List String :=
  d.map Prod.fst

/-- DEFAULT_CONFIG of blender4.4.3.py. -/
def DEFAULT_CONFIG : PyDict :=
  [("render_engine", .str "CYCLES"),
   ("output_dir", .str "/workspace/out"),
   ("filename_prefix", .str "frame"),
   ("file_format", .str "PNG"),
   ("color_mode", .str "RGB"),
   ("start_frame", .int 1),
   ("end_frame", .int 10),
   ("resolution_x", .int 1920),
   ("resolution_y", .int 1080),
   ("resolution_percent", .int 100),
   ("samples", .int 64),
   ("tile_size", .int 256),
   ("eevee_samples", .int 64),
   ("denoiser", .str "OPENIMAGEDENOISE"),
   ("device_type", .str "CUDA"),
   ("max_bounces", .int 6),
   ("eevee_ambient_occlusion", .bool true),
   ("eevee_bloom", .bool true),
   ("eevee_ssr", .bool true),
   ("eevee_volumetric", .bool true),
   ("noise_threshold", .float (0.01 : Rat)),
   ("denoising_samples", .int 0),
   ("ffmpeg_format", .str "MPEG4"),
   ("ffmpeg_codec", .str "H264"),
   ("ffmpeg_quality", .str "MEDIUM")]

/-- get_default_config: a copy of the static defaults. -/
def get_default_config : PyDict :=
  DEFAULT_CONFIG

/-- The host scene state read by get_blend_config (bpy.context.scene). -/
structure BlendScene where
  engine : String
  filepath : String
  file_format : String
  resolution_x : Int
  resolution_y : Int
  resolution_percentage : Int
  cycles_samples : Int
  cycles_tile_size : Int
  cycles_max_bounces : Int
  cycles_noise_threshold : Rat
  cycles_denoising_samples : Int
  eevee_taa_render_samples : Int
  eevee_use_gtao : Bool
  eevee_use_bloom : Bool
  eevee_use_ssr : Bool
  eevee_use_volumetric : Bool
  ffmpeg_format : String
  ffmpeg_codec : String
  ffmpeg_quality : Int

/-- get_blend_config: start from a copy of the defaults, overwrite with what
the host scene reports, with engine-specific and FFMPEG-specific sections. -/
def get_blend_config (sc : BlendScene) : PyDict :=
  let config := DEFAULT_CONFIG
  let config := dictSet config "render_engine" (.str sc.engine)
  let config := dictSet config "output_dir"
      (.str (pyOr (pyDirname sc.filepath) "/workspace/out"))
  let config := dictSet config "filename_prefix"
      (.str (pyOr (pySplitHead (pyBasename sc.filepath) '_') "frame"))
  let config := dictSet config "file_format" (.str sc.file_format)
  let config := dictSet config "resolution_x" (.int sc.resolution_x)
  let config := dictSet config "resolution_y" (.int sc.resolution_y)
  let config := dictSet config "resolution_percent" (.int sc.resolution_percentage)
  let config :=
    if sc.engine = "CYCLES" then
      let config := dictSet config "samples" (.int sc.cycles_samples)
      let config := dictSet config "tile_size" (.int sc.cycles_tile_size)
      let config := dictSet config "max_bounces" (.int sc.cycles_max_bounces)
      let config := dictSet config "noise_threshold" (.float sc.cycles_noise_threshold)
      dictSet config "denoising_samples" (.int sc.cycles_denoising_samples)
    else if sc.engine = "BLENDER_EEVEE" ∨ sc.engine = "BLENDER_EEVEE_NEXT" then
      let config := dictSet config "eevee_samples" (.int sc.eevee_taa_render_samples)
      let config := dictSet config "eevee_ambient_occlusion" (.bool sc.eevee_use_gtao)
      let config := dictSet config "eevee_bloom" (.bool sc.eevee_use_bloom)
      let config := dictSet config "eevee_ssr" (.bool sc.eevee_use_ssr)
      dictSet config "eevee_volumetric" (.bool sc.eevee_use_volumetric)
    else config
  if dictGet config "file_format" = some (.str "FFMPEG") then
    let config := dictSet config "ffmpeg_format" (.str sc.ffmpeg_format)
    let config := dictSet config "ffmpeg_codec" (.str sc.ffmpeg_codec)
    dictSet config "ffmpeg_quality" (.int sc.ffmpeg_quality)
  else config

/-- One entry of get_device_info(): what the host reports per compute device. -/
structure DeviceInfo where
  name : String
  type : String
  supported : Bool

/-- The menu label built for a detected device: f"{name} ({type})". -/
def device_label (d : DeviceInfo) : String :=
  d.name ++ " (" ++ d.type ++ ")"

/-- The Cycles-specific section of get_custom_config, from the samples prompt
through the device choice.  `devices` is what get_device_info() returned. -/
def custom_cycles_part (devices : List DeviceInfo) (fuel : Nat) (config : PyDict)
    (inputs : List String) : Option (PyDict × List String) :=
  pbind (get_user_input (some (64 : Int)) pyInt inputs) fun samples inputs =>
  let config := dictSet config "samples" (.int samples)
  pbind (get_user_input (some (256 : Int)) pyInt inputs) fun tile inputs =>
  let config := dictSet config "tile_size" (.int tile)
  pbind (get_user_input (some (6 : Int)) pyInt inputs) fun mb inputs =>
  let config := dictSet config "max_bounces" (.int mb)
  pbind (get_user_input (some (0.01 : Rat)) pyFloat inputs) fun nt inputs =>
  let config := dictSet config "noise_threshold" (.float nt)
  pbind (get_user_input (some (0 : Int)) pyInt inputs) fun ds inputs =>
  let config := dictSet config "denoising_samples" (.int ds)
  pbind (select_from_options fuel ["OpenImageDenoise", "OptiX", "禁用降噪"] 1 inputs)
    fun denoiser_choice inputs =>
  let config := dictSet config "denoiser"
      (.str (if pyIn "Open" denoiser_choice then "OPENIMAGEDENOISE"
             else if pyIn "Opti" denoiser_choice then "OPTIX"
             else "NONE"))
  pbind (select_from_options fuel (devices.map device_label) 1 inputs)
    fun device_choice inputs =>
  let config :=
    match devices.find? (fun d => device_label d == device_choice) with
    | some d => dictSet config "device_type" (.str d.type)
    | none => config
  some (config, inputs)

/-- The Eevee section of get_custom_config: sample count and four toggles. -/
def custom_eevee_part (fuel : Nat) (config : PyDict) (inputs : List String) :
    Option (PyDict × List String) :=
  pbind (get_user_input (some (64 : Int)) pyInt inputs) fun samples inputs =>
  let config := dictSet config "eevee_samples" (.int samples)
  pbind (select_from_options fuel ["是", "否"] 1 inputs) fun ao inputs =>
  let config := dictSet config "eevee_ambient_occlusion" (.bool (ao == "是"))
  pbind (select_from_options fuel ["是", "否"] 1 inputs) fun bloom inputs =>
  let config := dictSet config "eevee_bloom" (.bool (bloom == "是"))
  pbind (select_from_options fuel ["是", "否"] 1 inputs) fun ssr inputs =>
  let config := dictSet config "eevee_ssr" (.bool (ssr == "是"))
  pbind (select_from_options fuel ["是", "否"] 1 inputs) fun vol inputs =>
  some (dictSet config "eevee_volumetric" (.bool (vol == "是")), inputs)

/-- The FFmpeg section of get_custom_config: container, codec and quality. -/
def custom_ffmpeg_part (fuel : Nat) (config : PyDict) (inputs : List String) :
    Option (PyDict × List String) :=
  pbind (select_from_options fuel
      ["MPEG4", "AVI", "QUICKTIME", "DV", "H264", "XVID", "FLV", "MKV", "OGG", "WEBM"]
      1 inputs) fun fmt inputs =>
  let config := dictSet config "ffmpeg_format" (.str fmt)
  pbind (select_from_options fuel
      ["H264", "MPEG4", "MPEG2", "AV1", "VP9", "THEORA", "DNXHD", "PRORES", "FLASH", "FFV1"]
      1 inputs) fun codec inputs =>
  let config := dictSet config "ffmpeg_codec" (.str codec)
  pbind (select_from_options fuel
      ["LOSSLESS", "PERC_LOSSLESS", "HIGH", "MEDIUM", "LOW"] 1 inputs) fun q inputs =>
  some (dictSet config "ffmpeg_quality" (.str q), inputs)

/-- get_custom_config: the interactive construction mode.  Prompt defaults are
the DEFAULT_CONFIG values the source passes at each call site. -/
def get_custom_config (devices : List DeviceInfo) (fuel : Nat) (inputs : List String) :
    Option (PyDict × List String) :=
  let config := DEFAULT_CONFIG
  pbind (get_user_input (some "/workspace/out") pyStr inputs) fun od inputs =>
  let config := dictSet config "output_dir" (.str od)
  pbind (get_user_input (some "frame") pyStr inputs) fun pre inputs =>
  let config := dictSet config "filename_prefix" (.str pre)
  pbind (select_from_options fuel
      ["Cycles (光线追踪)", "Eevee (实时渲染)", "Eevee Next (最新实时渲染)"] 1 inputs)
    fun engine_choice inputs =>
  let config := dictSet config "render_engine"
      (.str (if pyIn "Cycles" engine_choice then "CYCLES"
             else if pyIn "Eevee Next" engine_choice then "BLENDER_EEVEE_NEXT"
             else "BLENDER_EEVEE"))
  pbind (select_from_options fuel ["PNG", "JPEG", "EXR", "TIFF", "FFMPEG"] 1 inputs)
    fun ff inputs =>
  let config := dictSet config "file_format" (.str ff)
  pbind (get_user_input (some (1 : Int)) pyInt inputs) fun sf inputs =>
  let config := dictSet config "start_frame" (.int sf)
  pbind (get_user_input (some (10 : Int)) pyInt inputs) fun ef inputs =>
  let config := dictSet config "end_frame" (.int ef)
  pbind (get_user_input (some (1920 : Int)) pyInt inputs) fun rx inputs =>
  let config := dictSet config "resolution_x" (.int rx)
  pbind (get_user_input (some (1080 : Int)) pyInt inputs) fun ry inputs =>
  let config := dictSet config "resolution_y" (.int ry)
  pbind (get_user_input (some (100 : Int)) pyInt inputs) fun rp inputs =>
  let config := dictSet config "resolution_percent" (.int rp)
  pbind (select_from_options fuel ["BW", "RGB", "RGBA"] 1 inputs) fun cm inputs =>
  let config := dictSet config "color_mode" (.str cm)
  pbind (if dictGet config "render_engine" = some (.str "CYCLES") then
           custom_cycles_part devices fuel config inputs
         else
           custom_eevee_part fuel config inputs) fun config inputs =>
  if dictGet config "file_format" = some (.str "FFMPEG") then
    custom_ffmpeg_part fuel config inputs
  else
    some (config, inputs)

/-!
## blender4.4.3.py: apply_config

apply_config reads a fully-populated configuration (every DEFAULT_CONFIG key
present, the invariant proved below) and writes the host scene/preferences.
It is modelled on a typed view of that configuration and an explicit host
state.  `refreshed_devices` stands for what cycles_prefs.get_devices() makes
the host device list after the compute backend has been set: it is a function
of the backend type written in phase one, which is exactly the two-phase
ordering the source relies on.  os.makedirs is an external side effect with no
bearing on the returned state and is not modelled.
-/

/-- Typed view of a full configuration, one field per DEFAULT_CONFIG key. -/
structure RenderConfig where
  render_engine : String
  output_dir : String
  filename_pfx : String
  file_format : String
  color_mode : String
  start_frame : Int
  end_frame : Int
  resolution_x : Int
  resolution_y : Int
  resolution_percent : Int
  samples : Int
  tile_size : Int
  eevee_samples : Int
  denoiser : String
  device_type : String
  max_bounces : Int
  eevee_ambient_occlusion : Bool
  eevee_bloom : Bool
  eevee_ssr : Bool
  eevee_volumetric : Bool
  noise_threshold : Rat
  denoising_samples : Int
  ffmpeg_format : String
  ffmpeg_codec : String
  ffmpeg_quality : String

/-- One host compute device (cycles preferences device entry). -/
structure Device where
  name : String
  type : String
  use : Bool

/-- Cycles add-on preferences: backend type and device list. -/
structure CyclesPrefs where
  compute_device_type : String
  devices : List Device

/-- scene.render.image_settings. -/
structure ImageSettings where
  file_format : String
  color_mode : String

/-- scene.render.ffmpeg. -/
structure FFmpegSettings where
  format : String
  codec : String
  constant_rate_factor : Nat

/-- scene.cycles. -/
structure CyclesSettings where
  samples : Int
  tile_size : Int
  max_bounces : Int
  noise_threshold : Rat
  denoising_samples : Int
  use_denoising : Bool
  denoiser : String

/-- scene.eevee. -/
structure EeveeSettings where
  taa_render_samples : Int
  use_gtao : Bool
  use_bloom : Bool
  use_ssr : Bool
  use_volumetric : Bool

/-- The host scene fields apply_config writes. -/
structure Scene where
  engine : String
  filepath : String
  image_settings : ImageSettings
  frame_start : Int
  frame_end : Int
  resolution_x : Int
  resolution_y : Int
  resolution_percentage : Int
  cycles : CyclesSettings
  eevee : EeveeSettings
  ffmpeg : FFmpegSettings

/-- quality_map of apply_config: FFmpeg quality tier to CRF value. -/
def quality_map : List (String × Nat) :=
  [("LOSSLESS", 0),
   ("PERC_LOSSLESS", 18),
   ("HIGH", 20),
   ("MEDIUM", 23),
   ("LOW", 28)]

/-- apply_config: project the configuration onto the host scene and, for the
Cycles engine with the cycles add-on present, onto the cycles preferences. -/
def apply_config (config : RenderConfig) (scene : Scene) (has_cycles_addon : Bool)
    (cycles_prefs : CyclesPrefs) (refreshed_devices : String → List Device) :
    Scene × CyclesPrefs :=
  let scene := { scene with engine := config.render_engine }
  let scene := { scene with
    filepath := pyPathJoin config.output_dir (config.filename_pfx ++ "_####") }
  let scene := { scene with image_settings := {
    file_format := config.file_format,
    color_mode := if ["PNG", "TIFF", "EXR"].contains config.file_format
                  then config.color_mode else "RGB" } }
  let scene := { scene with
    frame_start := config.start_frame,
    frame_end := config.end_frame,
    resolution_x := config.resolution_x,
    resolution_y := config.resolution_y,
    resolution_percentage := config.resolution_percent }
  let result :=
    if config.render_engine = "CYCLES" then
      let cycles_prefs :=
        if has_cycles_addon then
          -- phase one: write the backend type ("CPU" maps to the distinct
          -- enum value "NONE"), then refresh the device list,
          let device_type := config.device_type
          let backend := if device_type = "CPU" then "NONE" else device_type
          let devices := refreshed_devices backend
          -- phase two: enable exactly the devices of the selected type.
          let devices := devices.map (fun dv => { dv with
            use := if device_type = "CPU" then dv.type == "CPU"
                   else dv.type == device_type })
          { compute_device_type := backend, devices := devices }
        else cycles_prefs
      let scene := { scene with cycles := {
        samples := config.samples,
        tile_size := config.tile_size,
        max_bounces := config.max_bounces,
        noise_threshold := config.noise_threshold,
        denoising_samples := config.denoising_samples,
        use_denoising := config.denoiser ≠ "NONE",
        denoiser := if config.denoiser ≠ "NONE" then config.denoiser
                    else scene.cycles.denoiser } }
      (scene, cycles_prefs)
    else
      let scene := { scene with eevee := {
        taa_render_samples := config.eevee_samples,
        use_gtao := config.eevee_ambient_occlusion,
        use_bloom := config.eevee_bloom,
        use_ssr := config.eevee_ssr,
        use_volumetric := config.eevee_volumetric } }
      (scene, cycles_prefs)
  let scene := result.1
  let cycles_prefs := result.2
  let scene :=
    if config.file_format = "FFMPEG" then
      { scene with ffmpeg := {
        format := config.ffmpeg_format,
        codec := config.ffmpeg_codec,
        constant_rate_factor := dict_getD quality_map config.ffmpeg_quality 23 } }
    else scene
  (scene, cycles_prefs)

/-!
## Claims about the prompt engine
-/

/-- C1: a choice integer k entered at a `select_from_options` prompt over n
options is accepted exactly when 1 ≤ k ≤ n, in which case the returned value
is the option at position k-1 (the selected option value, 1-based indexing);
any k outside [1, n] is rejected and the loop re-prompts on the rest of the
input. -/
theorem C1_select_from_options_one_based {α : Type} (fuel : Nat) (options : List α)
    (default_index k : Int) (line : String) (rest : List String)
    (hk : pyInt (pyStrip line) = some k) (hne : pyStrip line ≠ "") :
    (∀ (_ : 1 ≤ k) (_ : k ≤ (options.length : Int)),
        ∃ o, options.get? (k - 1).toNat = some o ∧
          select_from_options (fuel + 1) options default_index (line :: rest) =
            some (o, rest)) ∧
    (¬(1 ≤ k ∧ k ≤ (options.length : Int)) →
        select_from_options (fuel + 1) options default_index (line :: rest) =
          select_from_options fuel options default_index rest) := by
  have hgui : get_user_input (some default_index) pyInt (line :: rest) = some (k, rest) := by
    simp [get_user_input, hne, hk]
  constructor
  · intro hlo hhi
    have hlt : (k - 1).toNat < options.length := by omega
    refine ⟨options.get ⟨(k - 1).toNat, hlt⟩, List.get?_eq_get hlt, ?_⟩
    simp only [select_from_options, hgui]
    rw [if_pos ⟨hlo, hhi⟩, List.get?_eq_get hlt]
  · intro hnot
    simp only [select_from_options, hgui]
    rw [if_neg hnot]

/-- Witness for C1 at a concrete input: choosing "2" among three options
returns the second option. -/
theorem C1_witness :
    select_from_options 1 ["a", "b", "c"] 1 ["2"] = some ("b", []) := by
  obtain ⟨o, ho, hsel⟩ :=
    (C1_select_from_options_one_based 0 ["a", "b", "c"] 1 2 "2" []
      (by decide) (by decide)).1 (by decide) (by decide)
  have : o = "b" := by
    have h2 : ((2 : Int) - 1).toNat = 1 := by decide
    rw [h2] at ho
    simpa using ho.symm
  rw [hsel, this]

/-- C2: the contract of get_user_input.  An empty (after stripping) line with a
default present returns the default; otherwise a line the requested type
coercion accepts returns the coerced value and a line it rejects re-issues the
prompt on the remaining input; and any value ever returned is either the
default or the coercion of some entered line — invalid data is never returned.
(The function is total, so no exception reaches the caller.) -/
theorem C2_get_user_input_contract {α : Type} (value_type : String → Option α)
    (default : Option α) :
    (∀ line rest dv, default = some dv → pyStrip line = "" →
        get_user_input default value_type (line :: rest) = some (dv, rest)) ∧
    (∀ line rest v, ¬(pyStrip line = "" ∧ default.isSome) →
        value_type (pyStrip line) = some v →
        get_user_input default value_type (line :: rest) = some (v, rest)) ∧
    (∀ line rest, ¬(pyStrip line = "" ∧ default.isSome) →
        value_type (pyStrip line) = none →
        get_user_input default value_type (line :: rest) =
          get_user_input default value_type rest) ∧
    (∀ inputs v rest, get_user_input default value_type inputs = some (v, rest) →
        default = some v ∨ ∃ line ∈ inputs, value_type (pyStrip line) = some v) := by
  refine ⟨?_, ?_, ?_, ?_⟩
  · intro line rest dv hdv hempty
    subst hdv
    simp [get_user_input, hempty]
  · intro line rest v hcond hv
    simp only [get_user_input]
    rw [dif_neg hcond, hv]
  · intro line rest hcond hv
    simp only [get_user_input]
    rw [dif_neg hcond, hv]
  · intro inputs
    induction inputs with
    | nil => intro v rest h; simp [get_user_input] at h
    | cons line tl ih =>
      intro v rest h
      simp only [get_user_input] at h
      by_cases hc : pyStrip line = "" ∧ (default).isSome
      · rw [dif_pos hc] at h
        left
        obtain ⟨h1, _⟩ := Prod.mk.injEq _ _ _ _ ▸ Option.some.injEq _ _ ▸ h
        have := Option.eq_some_of_isSome hc.2
        rw [Option.some_inj.mpr] at this
        · exact this
        · exact h1.symm ▸ rfl
      · rw [dif_neg hc] at h
        cases hvt : value_type (pyStrip line) with
        | some w =>
          rw [hvt] at h
          right
          refine ⟨line, by simp, ?_⟩
          cases h
          exact hvt
        | none =>
          rw [hvt] at h
          rcases ih v rest h with hd | ⟨l, hl, hvl⟩
          · exact Or.inl hd
          · exact Or.inr ⟨l, by simp [hl], hvl⟩

/-- Witness for C2 at a concrete input: a malformed integer line is skipped
and the following well-formed line is coerced and returned. -/
theorem C2_witness :
    get_user_input (some (24 : Int)) pyInt ["abc", " 7 "] = some (7, []) := by
  have h1 := (C2_get_user_input_contract pyInt (some (24 : Int))).2.2.1
    "abc" [" 7 "] (by decide) (by decide)
  have h2 := (C2_get_user_input_contract pyInt (some (24 : Int))).2.1
    " 7 " [] 7 (by decide) (by decide)
  rw [h1, h2]

/-- Auxiliary: to show a prompt sequence yields `none` it suffices that every
successful first step leads to `none`. -/
theorem pbind_none_of {α β : Type} (x : Option (α × List String))
    (f : α → List String → Option (β × List String))
    (h : ∀ a r, x = some (a, r) → f a r = none) : pbind x f = none := by
  cases x with
  | none => rfl
  | some p =>
    obtain ⟨a, r⟩ := p
    exact h a r rfl

/-- Over an empty option list no integer lies in [1, 0], so the selection loop
rejects every entry and never returns, whatever the user types. -/
theorem select_from_options_nil {α : Type} (fuel : Nat) (default_index : Int) :
    ∀ inputs, select_from_options fuel ([] : List α) default_index inputs = none := by
  induction fuel with
  | zero => intro inputs; rfl
  | succ f ih =>
    intro inputs
    simp only [select_from_options]
    cases h : get_user_input (some default_index) pyInt inputs with
    | none => rfl
    | some p =>
      obtain ⟨choice, rest⟩ := p
      dsimp only
      have hnot : ¬(1 ≤ choice ∧ choice ≤ (([] : List α).length : Int)) := by
        simp only [List.length_nil, Int.natCast_zero]
        omega
      rw [if_neg hnot]
      exact ih rest

/-- With an empty device list the Cycles branch of the interactive builder
never completes: its final device-choice prompt loops forever. -/
theorem custom_cycles_part_empty_devices (fuel : Nat) (config : PyDict)
    (inputs : List String) :
    custom_cycles_part [] fuel config inputs = none := by
  unfold custom_cycles_part
  apply pbind_none_of; intro a1 r1 _; dsimp only
  apply pbind_none_of; intro a2 r2 _; dsimp only
  apply pbind_none_of; intro a3 r3 _; dsimp only
  apply pbind_none_of; intro a4 r4 _; dsimp only
  apply pbind_none_of; intro a5 r5 _; dsimp only
  apply pbind_none_of; intro a6 r6 _; dsimp only
  rw [List.map_nil, select_from_options_nil]
  rfl

/-- Setting one key leaves the values of all other keys unchanged. -/
theorem dictGet_dictSet_ne (d : PyDict) (key k : String) (v : PyVal) (h : key ≠ k) :
    dictGet (dictSet d key v) k = dictGet d k := by
  induction d with
  | nil => simp [dictSet, dictGet, h]
  | cons hd tl ih =>
    obtain ⟨k', v'⟩ := hd
    by_cases hk : k' = key
    · subst hk
      simp [dictSet, dictGet, h]
    · simp only [dictSet, if_neg hk]
      by_cases hkk : k' = k
      · simp [dictGet, hkk]
      · simp [dictGet, hkk, ih]

/-- The Eevee section of the interactive builder never touches the
render_engine entry. -/
theorem custom_eevee_part_render_engine {fuel : Nat} {config config' : PyDict}
    {inputs rest : List String}
    (h : custom_eevee_part fuel config inputs = some (config', rest)) :
    dictGet config' "render_engine" = dictGet config "render_engine" := by
  unfold custom_eevee_part at h
  obtain ⟨a1, r1, _, h⟩ := pbind_eq_some h; dsimp only at h
  obtain ⟨a2, r2, _, h⟩ := pbind_eq_some h
  obtain ⟨a3, r3, _, h⟩ := pbind_eq_some h
  obtain ⟨a4, r4, _, h⟩ := pbind_eq_some h
  obtain ⟨a5, r5, _, h⟩ := pbind_eq_some h
  obtain ⟨he, -⟩ := Prod.mk.injEq .. ▸ Option.some.injEq .. ▸ h
  subst he
  rw [dictGet_dictSet_ne _ _ _ _ (by decide), dictGet_dictSet_ne _ _ _ _ (by decide),
      dictGet_dictSet_ne _ _ _ _ (by decide), dictGet_dictSet_ne _ _ _ _ (by decide),
      dictGet_dictSet_ne _ _ _ _ (by decide)]

/-- The FFmpeg section of the interactive builder never touches the
render_engine entry. -/
theorem custom_ffmpeg_part_render_engine {fuel : Nat} {config config' : PyDict}
    {inputs rest : List String}
    (h : custom_ffmpeg_part fuel config inputs = some (config', rest)) :
    dictGet config' "render_engine" = dictGet config "render_engine" := by
  unfold custom_ffmpeg_part at h
  obtain ⟨a1, r1, _, h⟩ := pbind_eq_some h; dsimp only at h
  obtain ⟨a2, r2, _, h⟩ := pbind_eq_some h
  obtain ⟨a3, r3, _, h⟩ := pbind_eq_some h
  obtain ⟨he, -⟩ := Prod.mk.injEq .. ▸ Option.some.injEq .. ▸ h
  subst he
  rw [dictGet_dictSet_ne _ _ _ _ (by decide), dictGet_dictSet_ne _ _ _ _ (by decide),
      dictGet_dictSet_ne _ _ _ _ (by decide)]

/-- Inversion for a conditional prompt step that returned a value. -/
theorem ite_eq_some_inv {α : Type} {c : Prop} [Decidable c] {X Y : Option α} {p : α}
    (h : (if c then X else Y) = some p) :
    (c ∧ X = some p) ∨ (¬c ∧ Y = some p) := by
  by_cases hc : c
  · exact Or.inl ⟨hc, by rwa [if_pos hc] at h⟩
  · exact Or.inr ⟨hc, by rwa [if_neg hc] at h⟩

/-- C3: with the ray-trace engine (Cycles) selected and an empty host device
list, the device-choice prompt never accepts any input, so the Cycles branch
of the interactive build never returns a configuration (first conjunct), and
consequently no terminating run of get_custom_config over an empty device list
has Cycles as its engine (second conjunct).  The build step does NOT terminate
normally and no CPU fallback value is ever selected. -/
theorem C3_cycles_with_no_devices :
    (∀ fuel config inputs, custom_cycles_part [] fuel config inputs = none) ∧
    (∀ fuel inputs config rest,
        get_custom_config [] fuel inputs = some (config, rest) →
        dictGet config "render_engine" ≠ some (PyVal.str "CYCLES")) := by
  refine ⟨custom_cycles_part_empty_devices, ?_⟩
  intro fuel inputs config rest h
  unfold get_custom_config at h
  obtain ⟨a1, r1, _, h⟩ := pbind_eq_some h; dsimp only at h
  obtain ⟨a2, r2, _, h⟩ := pbind_eq_some h
  obtain ⟨a3, r3, _, h⟩ := pbind_eq_some h
  obtain ⟨a4, r4, _, h⟩ := pbind_eq_some h
  obtain ⟨a5, r5, _, h⟩ := pbind_eq_some h
  obtain ⟨a6, r6, _, h⟩ := pbind_eq_some h
  obtain ⟨a7, r7, _, h⟩ := pbind_eq_some h
  obtain ⟨a8, r8, _, h⟩ := pbind_eq_some h
  obtain ⟨a9, r9, _, h⟩ := pbind_eq_some h
  obtain ⟨a10, r10, _, h⟩ := pbind_eq_some h
  obtain ⟨cfgB, rB, hB, h⟩ := pbind_eq_some h
  try dsimp only at h
  rw [custom_cycles_part_empty_devices] at hB
  rcases ite_eq_some_inv hB with ⟨-, hB⟩ | ⟨hcond, hB⟩
  · exact absurd hB (by simp)
  · have hre := custom_eevee_part_render_engine hB
    rcases ite_eq_some_inv h with ⟨-, h⟩ | ⟨-, h⟩
    · have hre2 := custom_ffmpeg_part_render_engine h
      rw [hre2, hre]
      exact hcond
    · obtain ⟨he, -⟩ := Prod.mk.injEq .. ▸ Option.some.injEq .. ▸ h
      subst he
      rw [hre]
      exact hcond

/-- The configuration produced by one concrete all-defaults Eevee run of the
interactive builder (used to witness C3's second conjunct on a real run). -/
def c3_eevee_run_config : PyDict :=
  dictSet (dictSet DEFAULT_CONFIG "render_engine" (.str "BLENDER_EEVEE"))
    "color_mode" (.str "BW")

/-- Witness for C3: a terminating run of the builder over an empty device list
(all defaults, engine choice 2 = Eevee) indeed has a non-Cycles engine. -/
theorem C3_witness :
    dictGet c3_eevee_run_config "render_engine" ≠ some (PyVal.str "CYCLES") :=
  C3_cycles_with_no_devices.2 1
    ["", "", "2", "", "", "", "", "", "", "", "", "", "", "", ""]
    c3_eevee_run_config [] (by rfl)

/-!
## Claims about apply_config
-/

/-- C4: for a Cycles configuration the device update is two-phase — the
compute backend type is written first (with the logical "CPU" selection mapped
to the distinct enum value "NONE", not "CPU"), the device list is the one the
host reports after that write, and in that refreshed list exactly the devices
whose type equals the selected device type end up enabled, all others
disabled. -/
theorem C4_device_two_phase (config : RenderConfig) (scene : Scene)
    (cycles_prefs : CyclesPrefs) (refreshed_devices : String → List Device)
    (h : config.render_engine = "CYCLES") :
    ((apply_config config scene true cycles_prefs refreshed_devices).2.compute_device_type =
        (if config.device_type = "CPU" then "NONE" else config.device_type)) ∧
    ((apply_config config scene true cycles_prefs refreshed_devices).2.devices =
        (refreshed_devices (if config.device_type = "CPU" then "NONE" else config.device_type)).map
          (fun dv => { dv with use := dv.type == config.device_type })) ∧
    (∀ dv ∈ (apply_config config scene true cycles_prefs refreshed_devices).2.devices,
        dv.use = true ↔ dv.type = config.device_type) ∧
    (config.device_type = "CPU" →
        (apply_config config scene true cycles_prefs refreshed_devices).2.compute_device_type
          = "NONE") := by
  have hmap : (fun dv : Device => { dv with
        use := if config.device_type = "CPU" then dv.type == "CPU"
               else dv.type == config.device_type }) =
      (fun dv : Device => { dv with use := dv.type == config.device_type }) := by
    funext dv
    by_cases hc : config.device_type = "CPU"
    · simp [hc]
    · simp [hc]
  have happ : (apply_config config scene true cycles_prefs refreshed_devices).2 =
      { compute_device_type := (if config.device_type = "CPU" then "NONE" else config.device_type),
        devices := (refreshed_devices
            (if config.device_type = "CPU" then "NONE" else config.device_type)).map
          (fun dv => { dv with use := dv.type == config.device_type }) } := by
    simp only [apply_config, h, if_true, ite_true]
    rw [← hmap]
  refine ⟨by rw [happ], by rw [happ], ?_, fun hcpu => by rw [happ, if_pos hcpu]⟩
  intro dv hdv
  rw [happ] at hdv
  simp only [List.mem_map] at hdv
  obtain ⟨dv0, -, rfl⟩ := hdv
  simp

/-- A concrete full configuration used by witnesses: Cycles engine with the
logical "CPU" device selection. -/
def cpu_cycles_config : RenderConfig :=
  { render_engine := "CYCLES"
    output_dir := "/workspace/out"
    filename_pfx := "frame"
    file_format := "PNG"
    color_mode := "RGB"
    start_frame := 1
    end_frame := 10
    resolution_x := 1920
    resolution_y := 1080
    resolution_percent := 100
    samples := 64
    tile_size := 256
    eevee_samples := 64
    denoiser := "OPENIMAGEDENOISE"
    device_type := "CPU"
    max_bounces := 6
    eevee_ambient_occlusion := true
    eevee_bloom := true
    eevee_ssr := true
    eevee_volumetric := true
    noise_threshold := 0
    denoising_samples := 0
    ffmpeg_format := "MPEG4"
    ffmpeg_codec := "H264"
    ffmpeg_quality := "MEDIUM" }

/-- A blank host scene used by witnesses. -/
def blank_scene : Scene :=
  { engine := ""
    filepath := ""
    image_settings := { file_format := "", color_mode := "" }
    frame_start := 0
    frame_end := 0
    resolution_x := 0
    resolution_y := 0
    resolution_percentage := 0
    cycles :=
      { samples := 0
        tile_size := 0
        max_bounces := 0
        noise_threshold := 0
        denoising_samples := 0
        use_denoising := false
        denoiser := "" }
    eevee :=
      { taa_render_samples := 0
        use_gtao := false
        use_bloom := false
        use_ssr := false
        use_volumetric := false }
    ffmpeg := { format := "", codec := "", constant_rate_factor := 0 } }

/-- Host cycles preferences used by witnesses. -/
def cuda_prefs : CyclesPrefs :=
  { compute_device_type := "CUDA", devices := [] }

/-- A host that reports one CPU and one CUDA device after any refresh. -/
def two_device_host (_ : String) : List Device :=
  [{ name := "Ryzen", type := "CPU", use := false },
   { name := "RTX", type := "CUDA", use := true }]

/-- Witness for C4: with the logical "CPU" selection, the backend written to
the host is "NONE" (not "CPU"). -/
theorem C4_witness :
    (apply_config cpu_cycles_config blank_scene true cuda_prefs
        two_device_host).2.compute_device_type = "NONE" :=
  (C4_device_two_phase cpu_cycles_config blank_scene cuda_prefs two_device_host
    rfl).2.2.2 rfl

/-- C5: the quality-tier lookup used by apply_config is total — each of the
five tiers maps to its documented CRF factor, any other tier string falls back
to 23, and for a video-container configuration that lookup is exactly what is
written to the host constant_rate_factor field. -/
theorem C5_quality_lookup_total :
    dict_getD quality_map "LOSSLESS" 23 = 0 ∧
    dict_getD quality_map "PERC_LOSSLESS" 23 = 18 ∧
    dict_getD quality_map "HIGH" 23 = 20 ∧
    dict_getD quality_map "MEDIUM" 23 = 23 ∧
    dict_getD quality_map "LOW" 23 = 28 ∧
    (∀ q, q ∉ ["LOSSLESS", "PERC_LOSSLESS", "HIGH", "MEDIUM", "LOW"] →
        dict_getD quality_map q 23 = 23) ∧
    (∀ config scene has_addon cycles_prefs refreshed_devices,
        config.file_format = "FFMPEG" →
        (apply_config config scene has_addon cycles_prefs
            refreshed_devices).1.ffmpeg.constant_rate_factor =
          dict_getD quality_map config.ffmpeg_quality 23) := by
  refine ⟨rfl, rfl, rfl, rfl, rfl, ?_, ?_⟩
  · intro q hq
    simp only [List.mem_cons, List.not_mem_nil, or_false, not_or] at hq
    obtain ⟨h1, h2, h3, h4, h5⟩ := hq
    have e1 : ("LOSSLESS" == q) = false := beq_eq_false_iff_ne.mpr (Ne.symm h1)
    have e2 : ("PERC_LOSSLESS" == q) = false := beq_eq_false_iff_ne.mpr (Ne.symm h2)
    have e3 : ("HIGH" == q) = false := beq_eq_false_iff_ne.mpr (Ne.symm h3)
    have e4 : ("MEDIUM" == q) = false := beq_eq_false_iff_ne.mpr (Ne.symm h4)
    have e5 : ("LOW" == q) = false := beq_eq_false_iff_ne.mpr (Ne.symm h5)
    simp [dict_getD, quality_map, List.find?, e1, e2, e3, e4, e5]
  · intro config scene has_addon cycles_prefs refreshed_devices hff
    simp only [apply_config, hff, if_true, ite_true]

/-- Witness for C5: an unrecognized tier string falls back to CRF 23. -/
theorem C5_witness : dict_getD quality_map "ULTRA" 23 = 23 :=
  C5_quality_lookup_total.2.2.2.2.2.1 "ULTRA" (by decide)

/-- C10: apply_config writes the configured color mode to the host image
settings exactly for the formats PNG, TIFF and EXR; for every other file
format (JPEG, FFMPEG, anything else) it writes the fixed value "RGB" and
ignores the configured color mode. -/
theorem C10_color_mode_projection (config : RenderConfig) (scene : Scene)
    (has_cycles_addon : Bool) (cycles_prefs : CyclesPrefs)
    (refreshed_devices : String → List Device) :
    (["PNG", "TIFF", "EXR"].contains config.file_format = true →
        (apply_config config scene has_cycles_addon cycles_prefs
            refreshed_devices).1.image_settings.color_mode = config.color_mode) ∧
    (["PNG", "TIFF", "EXR"].contains config.file_format = false →
        (apply_config config scene has_cycles_addon cycles_prefs
            refreshed_devices).1.image_settings.color_mode = "RGB") := by
  constructor
  · intro hin
    simp only [apply_config, hin, if_true, ite_true]
    split <;> split <;> rfl
  · intro hout
    simp only [apply_config, hout, if_false, ite_false, Bool.false_eq_true]
    split <;> split <;> rfl

/-- Witness for C10: with file format JPEG the host color mode is forced to
"RGB" even though the configuration says "RGBA". -/
theorem C10_witness :
    (apply_config { cpu_cycles_config with file_format := "JPEG", color_mode := "RGBA" }
        blank_scene true cuda_prefs two_device_host).1.image_settings.color_mode = "RGB" :=
  (C10_color_mode_projection
    { cpu_cycles_config with file_format := "JPEG", color_mode := "RGBA" }
    blank_scene true cuda_prefs two_device_host).2 rfl

/-!
## Claims about the video utility
-/

/-- C6: the encoder argument vector gets the bitrate-override pair
["-b:v", "0"] exactly for the VP9 codec (libvpx-vp9), the profile-selection
pair ["-profile:v", "3"] exactly for the ProRes codec, and for every other
codec it is exactly the common argument list plus the output path. -/
theorem C6_codec_extra_args (frame_rate : Int) (input_pattern preset : String)
    (crf : Nat) (output_file codec : String) :
    (codec = "libvpx-vp9" →
        build_ffmpeg_command frame_rate input_pattern codec preset crf output_file =
          base_command frame_rate input_pattern codec preset crf ++
            ["-b:v", "0", output_file] ∧
        "-b:v" ∈ build_ffmpeg_command frame_rate input_pattern codec preset crf output_file) ∧
    (codec = "prores" →
        build_ffmpeg_command frame_rate input_pattern codec preset crf output_file =
          base_command frame_rate input_pattern codec preset crf ++
            ["-profile:v", "3", output_file] ∧
        "-profile:v" ∈ build_ffmpeg_command frame_rate input_pattern codec preset crf
          output_file) ∧
    (codec ≠ "libvpx-vp9" → codec ≠ "prores" →
        build_ffmpeg_command frame_rate input_pattern codec preset crf output_file =
          base_command frame_rate input_pattern codec preset crf ++ [output_file]) := by
  refine ⟨?_, ?_, ?_⟩
  · intro hc
    subst hc
    constructor
    · simp [build_ffmpeg_command]
    · simp [build_ffmpeg_command]
  · intro hc
    subst hc
    constructor
    · simp [build_ffmpeg_command]
    · simp [build_ffmpeg_command]
  · intro h1 h2
    simp [build_ffmpeg_command, h1, h2]

/-- Witness for C6: the VP9 command really carries the bitrate override. -/
theorem C6_witness :
    "-b:v" ∈ build_ffmpeg_command 24 "frames/*.png" "libvpx-vp9" "fast" 23 "out.mp4" :=
  ((C6_codec_extra_args 24 "frames/*.png" "fast" 23 "out.mp4" "libvpx-vp9").1 rfl).2

/-- Environment in which no path exists (used to witness C7). -/
def no_fs_env : VideoEnv :=
  { path_exists := fun _ => false, run_returncode := fun _ => 1 }

/-- C7: when the entered input directory does not exist, create_video_from_pngs
returns the failure signal False to its caller (it does not raise) and the
list of encoder invocations it performed is empty. -/
theorem C7_missing_input_dir (env : VideoEnv) (fuel : Nat) (line : String)
    (rest : List String) (h : env.path_exists (pyStrip line) = false) :
    create_video_from_pngs env fuel (line :: rest) = some ((false, []), rest) := by
  simp [create_video_from_pngs, get_user_input, pyStr, pbind, h]

/-- Witness for C7: a concrete run against a filesystem with no directories
fails immediately with zero encoder invocations. -/
theorem C7_witness :
    create_video_from_pngs no_fs_env 1 ["missing"] = some ((false, []), []) :=
  C7_missing_input_dir no_fs_env 1 "missing" [] rfl

/-- After appending ".mp4", the lower-cased name ends in ".mp4". -/
theorem pyEndsWith_lower_append_mp4 (f : String) :
    pyEndsWith (pyLower (f ++ ".mp4")) ".mp4" = true := by
  unfold pyEndsWith pyLower
  rw [show (f ++ ".mp4").data = f.data ++ ".mp4".data from rfl]
  rw [show (String.mk ((f.data ++ ".mp4".data).map Char.toLower)).data =
      (f.data ++ ".mp4".data).map Char.toLower from rfl]
  rw [List.map_append]
  rw [show ".mp4".data.map Char.toLower = ".mp4".data from rfl]
  exact List.isSuffixOf_iff_suffix.mpr (List.suffix_append _ _)

/-- A name ending in ".mp4" passes the known-video-extension test. -/
theorem any_ext_append_mp4 (f : String) :
    ([".mp4", ".mkv", ".avi", ".mov", ".webm"].any
      (fun ext => pyEndsWith (pyLower (f ++ ".mp4")) ext)) = true := by
  apply List.any_eq_true.mpr
  exact ⟨".mp4", by simp, pyEndsWith_lower_append_mp4 f⟩

/-- C8: ensure_file_extension is total and idempotent — a name already ending
(case-insensitively) in a known video extension is returned unchanged, any
other name gets ".mp4" appended, applying it twice equals applying it once,
and in particular "clip.mp4" is fixed while "clip" becomes "clip.mp4". -/
theorem C8_ensure_file_extension_spec :
    (∀ f, ([".mp4", ".mkv", ".avi", ".mov", ".webm"].any
        (fun ext => pyEndsWith (pyLower f) ext)) = true →
        ensure_file_extension f = f) ∧
    (∀ f, ([".mp4", ".mkv", ".avi", ".mov", ".webm"].any
        (fun ext => pyEndsWith (pyLower f) ext)) = false →
        ensure_file_extension f = f ++ ".mp4") ∧
    (∀ f, ensure_file_extension (ensure_file_extension f) = ensure_file_extension f) ∧
    ensure_file_extension "clip.mp4" = "clip.mp4" ∧
    ensure_file_extension "clip" = "clip.mp4" := by
  have hkeep : ∀ f, ([".mp4", ".mkv", ".avi", ".mov", ".webm"].any
      (fun ext => pyEndsWith (pyLower f) ext)) = true → ensure_file_extension f = f := by
    intro f hf
    unfold ensure_file_extension
    rw [if_pos hf]
  have happend : ∀ f, ([".mp4", ".mkv", ".avi", ".mov", ".webm"].any
      (fun ext => pyEndsWith (pyLower f) ext)) = false →
      ensure_file_extension f = f ++ ".mp4" := by
    intro f hf
    unfold ensure_file_extension
    rw [if_neg (by simp [hf])]
  refine ⟨hkeep, happend, ?_, by decide, by decide⟩
  intro f
  cases hf : ([".mp4", ".mkv", ".avi", ".mov", ".webm"].any
      (fun ext => pyEndsWith (pyLower f) ext)) with
  | true => rw [hkeep f hf, hkeep f hf]
  | false =>
    rw [happend f hf, hkeep (f ++ ".mp4") (any_ext_append_mp4 f)]

/-- Witness for C8: a name already ending in an upper-case video extension is
returned unchanged. -/
theorem C8_witness : ensure_file_extension "clip.MKV" = "clip.MKV" :=
  C8_ensure_file_extension_spec.1 "clip.MKV" (by decide)

/-!
## Claim C9: no construction mode loses a key
-/

/-- Setting a key can only grow the key set of a dict. -/
theorem mem_dictKeys_dictSet {d : PyDict} {key k : String} {v : PyVal}
    (h : k ∈ dictKeys d) : k ∈ dictKeys (dictSet d key v) := by
  induction d with
  | nil => simp [dictKeys] at h
  | cons hd tl ih =>
    obtain ⟨k', v'⟩ := hd
    simp only [dictKeys, List.map_cons, List.mem_cons] at h
    simp only [dictSet]
    by_cases hk : k' = key
    · rw [if_pos hk]
      simp only [dictKeys, List.map_cons, List.mem_cons]
      rcases h with h | h
      · exact Or.inl (h.trans hk)
      · exact Or.inr h
    · rw [if_neg hk]
      simp only [dictKeys, List.map_cons, List.mem_cons]
      rcases h with h | h
      · exact Or.inl h
      · exact Or.inr (ih h)

/-- The Cycles section of the interactive builder only adds or overwrites
keys. -/
theorem custom_cycles_part_keys {devices : List DeviceInfo} {fuel : Nat}
    {config config' : PyDict} {inputs rest : List String}
    (h : custom_cycles_part devices fuel config inputs = some (config', rest)) :
    ∀ k, k ∈ dictKeys config → k ∈ dictKeys config' := by
  unfold custom_cycles_part at h
  obtain ⟨a1, r1, _, h⟩ := pbind_eq_some h; dsimp only at h
  obtain ⟨a2, r2, _, h⟩ := pbind_eq_some h
  obtain ⟨a3, r3, _, h⟩ := pbind_eq_some h
  obtain ⟨a4, r4, _, h⟩ := pbind_eq_some h
  obtain ⟨a5, r5, _, h⟩ := pbind_eq_some h
  obtain ⟨a6, r6, _, h⟩ := pbind_eq_some h
  obtain ⟨a7, r7, _, h⟩ := pbind_eq_some h
  obtain ⟨he, -⟩ := Prod.mk.injEq .. ▸ Option.some.injEq .. ▸ h
  subst he
  intro k hk
  cases hfind : devices.find? (fun d => device_label d == a7) with
  | some d =>
    repeat (first | exact hk | apply mem_dictKeys_dictSet)
  | none =>
    repeat (first | exact hk | apply mem_dictKeys_dictSet)

/-- The Eevee section of the interactive builder only adds or overwrites
keys. -/
theorem custom_eevee_part_keys {fuel : Nat} {config config' : PyDict}
    {inputs rest : List String}
    (h : custom_eevee_part fuel config inputs = some (config', rest)) :
    ∀ k, k ∈ dictKeys config → k ∈ dictKeys config' := by
  unfold custom_eevee_part at h
  obtain ⟨a1, r1, _, h⟩ := pbind_eq_some h; dsimp only at h
  obtain ⟨a2, r2, _, h⟩ := pbind_eq_some h
  obtain ⟨a3, r3, _, h⟩ := pbind_eq_some h
  obtain ⟨a4, r4, _, h⟩ := pbind_eq_some h
  obtain ⟨a5, r5, _, h⟩ := pbind_eq_some h
  obtain ⟨he, -⟩ := Prod.mk.injEq .. ▸ Option.some.injEq .. ▸ h
  subst he
  intro k hk
  repeat (first | exact hk | apply mem_dictKeys_dictSet)

/-- The FFmpeg section of the interactive builder only adds or overwrites
keys. -/
theorem custom_ffmpeg_part_keys {fuel : Nat} {config config' : PyDict}
    {inputs rest : List String}
    (h : custom_ffmpeg_part fuel config inputs = some (config', rest)) :
    ∀ k, k ∈ dictKeys config → k ∈ dictKeys config' := by
  unfold custom_ffmpeg_part at h
  obtain ⟨a1, r1, _, h⟩ := pbind_eq_some h; dsimp only at h
  obtain ⟨a2, r2, _, h⟩ := pbind_eq_some h
  obtain ⟨a3, r3, _, h⟩ := pbind_eq_some h
  obtain ⟨he, -⟩ := Prod.mk.injEq .. ▸ Option.some.injEq .. ▸ h
  subst he
  intro k hk
  repeat (first | exact hk | apply mem_dictKeys_dictSet)

/-- C9: every key of DEFAULT_CONFIG is present in the configuration produced
by each of the three construction modes — the defaults copy, host-state
extraction, and any terminating run of the interactive builder. -/
theorem C9_no_partial_configs :
    (∀ k, k ∈ dictKeys DEFAULT_CONFIG → k ∈ dictKeys get_default_config) ∧
    (∀ sc k, k ∈ dictKeys DEFAULT_CONFIG → k ∈ dictKeys (get_blend_config sc)) ∧
    (∀ devices fuel inputs config rest,
        get_custom_config devices fuel inputs = some (config, rest) →
        ∀ k, k ∈ dictKeys DEFAULT_CONFIG → k ∈ dictKeys config) := by
  refine ⟨fun k hk => hk, ?_, ?_⟩
  · intro sc k hk
    unfold get_blend_config
    dsimp only
    repeat' split
    all_goals
      repeat apply mem_dictKeys_dictSet
      exact hk
  · intro devices fuel inputs config rest h
    unfold get_custom_config at h
    obtain ⟨a1, r1, _, h⟩ := pbind_eq_some h; dsimp only at h
    obtain ⟨a2, r2, _, h⟩ := pbind_eq_some h
    obtain ⟨a3, r3, _, h⟩ := pbind_eq_some h
    obtain ⟨a4, r4, _, h⟩ := pbind_eq_some h
    obtain ⟨a5, r5, _, h⟩ := pbind_eq_some h
    obtain ⟨a6, r6, _, h⟩ := pbind_eq_some h
    obtain ⟨a7, r7, _, h⟩ := pbind_eq_some h
    obtain ⟨a8, r8, _, h⟩ := pbind_eq_some h
    obtain ⟨a9, r9, _, h⟩ := pbind_eq_some h
    obtain ⟨a10, r10, _, h⟩ := pbind_eq_some h
    obtain ⟨cfgB, rB, hB, h⟩ := pbind_eq_some h
    try dsimp only at h
    intro k hk
    have hbranch : ∀ j, j ∈ dictKeys DEFAULT_CONFIG → j ∈ dictKeys cfgB := by
      rcases ite_eq_some_inv hB with ⟨-, hB⟩ | ⟨-, hB⟩
      · intro j hj
        apply custom_cycles_part_keys hB
        repeat apply mem_dictKeys_dictSet
        exact hj
      · intro j hj
        apply custom_eevee_part_keys hB
        repeat apply mem_dictKeys_dictSet
        exact hj
    rcases ite_eq_some_inv h with ⟨-, h⟩ | ⟨-, h⟩
    · exact custom_ffmpeg_part_keys h k (hbranch k hk)
    · obtain ⟨he, -⟩ := Prod.mk.injEq .. ▸ Option.some.injEq .. ▸ h
      subst he
      exact hbranch k hk

/-- Witness for C9: the render_engine key survives host-state extraction from
a concrete scene. -/
theorem C9_witness :
    "render_engine" ∈ dictKeys (get_blend_config
      { engine := "BLENDER_EEVEE", filepath := "/tmp/out/shot_01", file_format := "PNG",
        resolution_x := 800, resolution_y := 600, resolution_percentage := 100,
        cycles_samples := 1, cycles_tile_size := 1, cycles_max_bounces := 1,
        cycles_noise_threshold := 0, cycles_denoising_samples := 0,
        eevee_taa_render_samples := 16, eevee_use_gtao := false,
        eevee_use_bloom := false, eevee_use_ssr := false,
        eevee_use_volumetric := false, ffmpeg_format := "MPEG4",
        ffmpeg_codec := "H264", ffmpeg_quality := 50 }) :=
  C9_no_partial_configs.2.1 _ "render_engine" (by decide)
